import Mathlib

/-!
Shallow embedding of the Monkey front end (tokenizer, parser, AST) of
bigdragon0610/monkey_rust, translated from `src/token.rs`, `src/lexer.rs`,
`src/ast.rs` and `src/parser.rs`.

The repository mixes historical iterations of the same files: `parser.rs`
uses `TokenType` in path position (`TokenType::EOF`), which requires the
enum form of the token-kind type, while the snapshot of `token.rs` under
`src/` is the string-alias iteration.  The token kinds are embedded as an
inductive type whose constructors are exactly the constants of `token.rs`
(`ILLEGAL, EOF, IDENT, INT, ASSIGN, ..., EQ, NOTEQ`); the two forms agree
as value sets, since the string constants are pairwise distinct.
-/

set_option maxRecDepth 100000

namespace Monkey

/-- Token kinds, one constructor per constant of `src/token.rs`. -/
inductive TokenType where
  | ILLEGAL
  | EOF
  | IDENT
  | INT
  | ASSIGN
  | PLUS
  | MINUS
  | BANG
  | ASTERISK
  | SLASH
  | LT
  | GT
  | COMMA
  | SEMICOLON
  | LPAREN
  | RPAREN
  | LBRACE
  | RBRACE
  | FUNCTION
  | LET
  | TRUE
  | FALSE
  | IF
  | ELSE
  | RETURN
  | EQ
  | NOTEQ
deriving DecidableEq, Repr

/-- Modelled from the spec: the diagnostic pattern in §4.3 / §8 is
"expected next token to be IDENT, got ASSIGN instead", i.e. the `{:?}`
(Debug) rendering of a token kind used by `Parser::peek_error` prints the
bare kind name.  The iteration of `token.rs` that `parser.rs` compiles
against (an enum whose derived Debug prints the variant name) is not under
`src/`; this function reproduces that rendering. -/
def tokenTypeDebug : TokenType → String
  | .ILLEGAL => "ILLEGAL"
  | .EOF => "EOF"
  | .IDENT => "IDENT"
  | .INT => "INT"
  | .ASSIGN => "ASSIGN"
  | .PLUS => "PLUS"
  | .MINUS => "MINUS"
  | .BANG => "BANG"
  | .ASTERISK => "ASTERISK"
  | .SLASH => "SLASH"
  | .LT => "LT"
  | .GT => "GT"
  | .COMMA => "COMMA"
  | .SEMICOLON => "SEMICOLON"
  | .LPAREN => "LPAREN"
  | .RPAREN => "RPAREN"
  | .LBRACE => "LBRACE"
  | .RBRACE => "RBRACE"
  | .FUNCTION => "FUNCTION"
  | .LET => "LET"
  | .TRUE => "TRUE"
  | .FALSE => "FALSE"
  | .IF => "IF"
  | .ELSE => "ELSE"
  | .RETURN => "RETURN"
  | .EQ => "EQ"
  | .NOTEQ => "NOTEQ"

/-- `Token { token_type, literal }` of `src/token.rs`. -/
structure Token where
  token_type : TokenType
  literal : String
deriving DecidableEq, Repr

/-- The fixed keyword table `KEYWORDS` of `src/token.rs`. -/
def KEYWORDS : List (String × TokenType) :=
  [("fn", .FUNCTION), ("let", .LET), ("true", .TRUE), ("false", .FALSE),
   ("if", .IF), ("else", .ELSE), ("return", .RETURN)]

/-- `lookup_ident` of `src/token.rs`: first keyword-table entry whose key
equals the text, else the generic identifier kind. -/
def lookup_ident (ident : String) : TokenType :=
  match (KEYWORDS.filterMap
      (fun kw => if kw.1 = ident then some kw.2 else none)).head? with
  | some tok => tok
  | none => .IDENT

/-- `is_letter` of `src/lexer.rs`: `ch.is_ascii_alphabetic() || ch == '_'`. -/
def is_letter (ch : Char) : Bool :=
  (Char.ofNat 65 ≤ ch && ch ≤ Char.ofNat 90) ||
  (Char.ofNat 97 ≤ ch && ch ≤ Char.ofNat 122) ||
  ch = '_'

/-- Rust `char::is_ascii_whitespace`: space, tab, newline, form feed,
carriage return. -/
def is_ascii_whitespace (ch : Char) : Bool :=
  ch = ' ' || ch = Char.ofNat 9 || ch = Char.ofNat 10 ||
  ch = Char.ofNat 12 || ch = Char.ofNat 13

/-- Rust `char::is_ascii_digit`. -/
def is_ascii_digit (ch : Char) : Bool :=
  Char.ofNat 48 ≤ ch && ch ≤ Char.ofNat 57

/-- `Lexer::read_char`: `self.input.chars().nth(position)`.  The lexer's
input is embedded as its list of characters. -/
def read_char (input : List Char) (position : Nat) : Option Char :=
  input.get? position

/-- `new_token` of `src/lexer.rs`. -/
def new_token (token_type : TokenType) (ch : Char) : Token :=
  { token_type := token_type, literal := ch.toString }

/-- Loop body of `Lexer::skip_whitespace`: the source's
`while let Some(ch) = self.read_char(position)` walks the characters from
`position` on, so it is embedded as structural recursion over the
remaining suffix `input.drop position`, carrying the absolute position. -/
def skip_whitespace_go : List Char → Nat → Nat
  | [], position => position
  | ch :: rest, position =>
    if is_ascii_whitespace ch then skip_whitespace_go rest (position + 1)
    else position

/-- `Lexer::skip_whitespace`. -/
def skip_whitespace (input : List Char) (position : Nat) : Nat :=
  skip_whitespace_go (input.drop position) position

/-- Loop body of `Lexer::read_identifier` (same embedding scheme as
`skip_whitespace_go`). -/
def read_identifier_go : List Char → Nat → Nat
  | [], position => position
  | ch :: rest, position =>
    if is_letter ch then read_identifier_go rest (position + 1)
    else position

/-- `Lexer::read_identifier`. -/
def read_identifier (input : List Char) (position : Nat) : Nat :=
  read_identifier_go (input.drop position) position

/-- Loop body of `Lexer::read_number` (same embedding scheme as
`skip_whitespace_go`). -/
def read_number_go : List Char → Nat → Nat
  | [], position => position
  | ch :: rest, position =>
    if is_ascii_digit ch then read_number_go rest (position + 1)
    else position

/-- `Lexer::read_number`. -/
def read_number (input : List Char) (position : Nat) : Nat :=
  read_number_go (input.drop position) position

/-- The source substring `self.input[position..read_position]`. -/
def slice (input : List Char) (position read_position : Nat) : String :=
  String.mk ((input.drop position).take (read_position - position))

/-- The per-character closure `|ch| match ch { ... }` inside
`Lexer::next_token`, together with its mutations of `position`: it
evaluates to the token and the value `position` holds after the closure
ran (`position + 1` for the compound `==`/`!=` tokens, `read_position - 1`
after an identifier or number, `position` otherwise).  The Rust `match` on
the character is rendered as a chain of equality tests, which is its exact
semantics since the patterns are character literals. -/
def next_token_body (input : List Char) (position : Nat) (ch : Char) :
    Token × Nat :=
  if ch = '=' then
    match read_char input (position + 1) with
    | some peek_ch =>
      if peek_ch = '=' then
        ({ token_type := .EQ, literal := String.mk [ch, peek_ch] },
         position + 1)
      else (new_token .ASSIGN ch, position)
    | none => (new_token .ASSIGN ch, position)
  else if ch = '+' then (new_token .PLUS ch, position)
  else if ch = '-' then (new_token .MINUS ch, position)
  else if ch = '!' then
    match read_char input (position + 1) with
    | some peek_ch =>
      if peek_ch = '=' then
        ({ token_type := .NOTEQ, literal := String.mk [ch, peek_ch] },
         position + 1)
      else (new_token .BANG ch, position)
    | none => (new_token .BANG ch, position)
  else if ch = '/' then (new_token .SLASH ch, position)
  else if ch = '*' then (new_token .ASTERISK ch, position)
  else if ch = '<' then (new_token .LT ch, position)
  else if ch = '>' then (new_token .GT ch, position)
  else if ch = ';' then (new_token .SEMICOLON ch, position)
  else if ch = ',' then (new_token .COMMA ch, position)
  else if ch = '(' then (new_token .LPAREN ch, position)
  else if ch = ')' then (new_token .RPAREN ch, position)
  else if ch = Char.ofNat 123 then (new_token .LBRACE ch, position)
  else if ch = Char.ofNat 125 then (new_token .RBRACE ch, position)
  else if is_letter ch then
    let read_position := read_identifier input position
    let literal := slice input position read_position
    ({ token_type := lookup_ident literal, literal := literal },
     read_position - 1)
  else if is_ascii_digit ch then
    let read_position := read_number input position
    let literal := slice input position read_position
    ({ token_type := .INT, literal := literal }, read_position - 1)
  else (new_token .ILLEGAL ch, position)

/-- `Lexer::next_token`: skip whitespace, dispatch on the character under
the cursor (end of input yields the EOF token with the single-space
literal of `new_token(EOF, ' ')`), and return the token together with the
next read position `position + 1`. -/
def next_token (input : List Char) (position0 : Nat) : Token × Nat :=
  let position := skip_whitespace input position0
  match read_char input position with
  | none => (new_token .EOF ' ', position + 1)
  | some ch =>
    let r := next_token_body input position ch
    (r.1, r.2 + 1)

/-! ## AST model, from `src/ast.rs` -/

/-- `Identifier` of `src/ast.rs`. -/
structure Identifier where
  token : Token
  value : String
deriving DecidableEq, Repr

/-- `IntegerLiteral`, referenced by `src/parser.rs` (`value` is an `i64`;
its parsed values are embedded as the mathematical integers in the `i64`
range, see `parse_i64`). -/
structure IntegerLiteral where
  token : Token
  value : Int
deriving DecidableEq, Repr

/-- The `Expression` tagged variant: `Identifier` from `src/ast.rs`, plus
the `IntegerLiteral` variant required by `src/parser.rs`. -/
inductive Expression where
  | identifier : Identifier → Expression
  | integerLiteral : IntegerLiteral → Expression
deriving DecidableEq, Repr

/-- `LetStatement` of `src/ast.rs`. -/
structure LetStatement where
  token : Token
  name : Identifier
  value : Option Expression
deriving DecidableEq, Repr

/-- `ReturnStatement` of `src/ast.rs`. -/
structure ReturnStatement where
  token : Token
  return_value : Option Expression
deriving DecidableEq, Repr

/-- `ExpressionStatement` of `src/ast.rs`. -/
structure ExpressionStatement where
  token : Token
  expression : Option Expression
deriving DecidableEq, Repr

/-- The `Statement` tagged variant of `src/ast.rs`. -/
inductive Statement where
  | letStatement : LetStatement → Statement
  | returnStatement : ReturnStatement → Statement
  | expressionStatement : ExpressionStatement → Statement
deriving DecidableEq, Repr

/-- `Program` of `src/ast.rs`. -/
structure Program where
  statements : List Statement
deriving DecidableEq, Repr

/-- `Identifier::string`. -/
def Identifier.string (i : Identifier) : String :=
  i.value

/-- `Identifier::token_literal`. -/
def Identifier.token_literal (i : Identifier) : String :=
  i.token.literal

/-- `Expression::token_literal` (the `IntegerLiteral` arm lives in the
iteration of `ast.rs` that `parser.rs` compiles against, not under `src/`;
as everywhere in the AST it returns the node's token literal). -/
def Expression.token_literal : Expression → String
  | .identifier i => i.token.literal
  | .integerLiteral il => il.token.literal

/-- `Expression::string` (for `IntegerLiteral`, the token literal — same
provenance note as `Expression.token_literal`; no claim depends on it). -/
def Expression.string : Expression → String
  | .identifier i => i.string
  | .integerLiteral il => il.token.literal

/-- `LetStatement::token_literal`. -/
def LetStatement.token_literal (s : LetStatement) : String :=
  s.token.literal

/-- `LetStatement::string`:
`format!("{} {} = {};", token_literal, name.string, value map_or "")`. -/
def LetStatement.string (s : LetStatement) : String :=
  s.token_literal ++ " " ++ s.name.string ++ " = " ++
    (match s.value with
     | some v => v.string
     | none => "") ++ ";"

/-- `ReturnStatement::token_literal`. -/
def ReturnStatement.token_literal (s : ReturnStatement) : String :=
  s.token.literal

/-- `ReturnStatement::string`. -/
def ReturnStatement.string (s : ReturnStatement) : String :=
  s.token_literal ++ " " ++
    (match s.return_value with
     | some v => v.string
     | none => "") ++ ";"

/-- `ExpressionStatement::token_literal`. -/
def ExpressionStatement.token_literal (s : ExpressionStatement) : String :=
  s.token.literal

/-- `ExpressionStatement::string`. -/
def ExpressionStatement.string (s : ExpressionStatement) : String :=
  match s.expression with
  | some v => v.string
  | none => ""

/-- `Statement::token_literal` (dispatch over the variants). -/
def Statement.token_literal : Statement → String
  | .letStatement s => s.token_literal
  | .returnStatement s => s.token_literal
  | .expressionStatement s => s.token_literal

/-- `Statement::string` (dispatch over the variants). -/
def Statement.string : Statement → String
  | .letStatement s => s.string
  | .returnStatement s => s.string
  | .expressionStatement s => s.string

/-- `Program::token_literal`. -/
def Program.token_literal (p : Program) : String :=
  match p.statements.head? with
  | some s => s.token_literal
  | none => ""

/-- `Program::string`: concatenation of the statements' strings. -/
def Program.string (p : Program) : String :=
  String.join (p.statements.map Statement.string)

/-! ## Parser, from `src/parser.rs` -/

/-- The `Operator` precedence enumeration of `src/parser.rs`
(`Lowest < Equals < LessGrater < Sum < Product < Prefix-level < Call`;
the sixth level is the prefix-operator level). -/
inductive Operator where
  | Lowest
  | Equals
  | LessGrater
  | Sum
  | Product
  | PrefixLevel
  | Call
deriving DecidableEq, Repr

/-- `Operator as usize`: the discriminant of the precedence level. -/
def Operator.asUsize : Operator → Nat
  | .Lowest => 0
  | .Equals => 1
  | .LessGrater => 2
  | .Sum => 3
  | .Product => 4
  | .PrefixLevel => 5
  | .Call => 6

/-- `Token::new()`, used by `Parser::new` only to pre-fill the token
window; both copies are overwritten by the two `next_token` calls before
any read, so its contents are unobservable. -/
def Token.new : Token :=
  { token_type := .ILLEGAL, literal := "" }

/-- The `Parser` struct of `src/parser.rs`.  The `l: Lexer` field together
with the lexer's read cursor is embedded as `input` and `pos` (the lexer
holds only the input string; the cursor is the position value threaded
through `Lexer::next_token`). -/
structure Parser where
  input : List Char
  pos : Nat
  errors : List String
  cur_token : Token
  peek_token : Token
deriving DecidableEq, Repr

/-- `Parser::next_token`: shift the window by one, pulling one token from
the lexer. -/
def Parser.next_token (p : Parser) : Parser :=
  let r := Monkey.next_token p.input p.pos
  { p with cur_token := p.peek_token, peek_token := r.1, pos := r.2 }

/-- `Parser::new`: prime the two-token window. -/
def Parser.new (input : List Char) : Parser :=
  (({ input := input, pos := 0, errors := [],
      cur_token := Token.new, peek_token := Token.new } : Parser)
    |>.next_token).next_token

/-- `Parser::peek_error`: builds (and returns) the diagnostic string.  In
the source it returns the `String` produced by `format!`; it does not
append it to `self.errors`. -/
def Parser.peek_error (p : Parser) (t : TokenType) : String :=
  "expected next token to be " ++ tokenTypeDebug t ++ ", got " ++
    tokenTypeDebug p.peek_token.token_type ++ " instead"

/-- `Parser::cur_token_is`. -/
def Parser.cur_token_is (p : Parser) (t : TokenType) : Bool :=
  p.cur_token.token_type = t

/-- `Parser::peek_token_is`. -/
def Parser.peek_token_is (p : Parser) (t : TokenType) : Bool :=
  p.peek_token.token_type = t

/-- `Parser::expect_peek`.  On mismatch the source evaluates
`self.peek_error(t);` and discards the resulting `String` (nothing is
pushed onto `errors`), then returns `false` without advancing. -/
def Parser.expect_peek (p : Parser) (t : TokenType) : Bool × Parser :=
  if p.peek_token_is t then (true, p.next_token)
  else
    let _discarded := p.peek_error t
    (false, p)

/-- Rust `str::parse::<i64>()` as used on integer-literal text: optional
sign, one or more ASCII digits, value within the `i64` range; `none` is
`Err`. -/
def parse_i64 (s : String) : Option Int :=
  let cs := s.toList
  let signDigits : Int × List Char :=
    match cs with
    | '+' :: rest => (1, rest)
    | '-' :: rest => (-1, rest)
    | rest => (1, rest)
  let sign := signDigits.1
  let digits := signDigits.2
  if digits.isEmpty then none
  else if digits.all is_ascii_digit then
    let n : Nat := digits.foldl (fun a c => a * 10 + (c.toNat - 48)) 0
    let v : Int := sign * n
    if -(2 ^ 63) ≤ v ∧ v ≤ 2 ^ 63 - 1 then some v else none
  else none

/-- `Parser::parse_identifier`. -/
def Parser.parse_identifier (p : Parser) : Option Expression :=
  some (.identifier { token := p.cur_token, value := p.cur_token.literal })

/-- `Parser::parese_integer_literal` (source spelling): parse the current
token's literal as an `i64`; on failure push the "could not parse … as
integer" diagnostic and yield no node. -/
def Parser.parese_integer_literal (p : Parser) : Option Expression × Parser :=
  match parse_i64 p.cur_token.literal with
  | some value =>
    (some (.integerLiteral { token := p.cur_token, value := value }), p)
  | none =>
    (none, { p with errors := p.errors ++
      ["could not parse " ++ p.cur_token.literal ++ " as integer"] })

/-- `Parser::parse_expression`: dispatch on the current token kind; only
`IDENT` and `INT` have handlers, everything else yields no node.  The
`precedence` argument is accepted and ignored, as in the source. -/
def Parser.parse_expression (p : Parser) (_precedence : Nat) :
    Option Expression × Parser :=
  if p.cur_token.token_type = .IDENT then (p.parse_identifier, p)
  else if p.cur_token.token_type = .INT then p.parese_integer_literal
  else (none, p)

/-- The `while !self.cur_token_is(SEMICOLON) { self.next_token(); }` loop
shared by `parse_let_statement` and `parse_return_statement`, with an
explicit fuel bound: `none` means the loop did not reach a semicolon
within `fuel` steps (the source loop has no other exit). -/
def Parser.skip_to_semicolon : Nat → Parser → Option Parser
  | 0, p => if p.cur_token_is .SEMICOLON then some p else none
  | fuel + 1, p =>
    if p.cur_token_is .SEMICOLON then some p
    else Parser.skip_to_semicolon fuel p.next_token

/-- `Parser::parse_let_statement`.  The result is `none` when the
skip-to-semicolon loop runs out of fuel; otherwise `some (stmt?, p)` with
`stmt? = none` when the statement was abandoned (`expect_peek` failure). -/
def Parser.parse_let_statement (fuel : Nat) (p : Parser) :
    Option (Option Statement × Parser) :=
  let token := p.cur_token
  match p.expect_peek .IDENT with
  | (false, p) => some (none, p)
  | (true, p) =>
    let name : Identifier := { token := p.cur_token, value := p.cur_token.literal }
    match p.expect_peek .ASSIGN with
    | (false, p) => some (none, p)
    | (true, p) =>
      match Parser.skip_to_semicolon fuel p with
      | none => none
      | some p =>
        some (some (.letStatement { token := token, name := name, value := none }), p)

/-- `Parser::parse_return_statement`. -/
def Parser.parse_return_statement (fuel : Nat) (p : Parser) :
    Option (Option Statement × Parser) :=
  let stmt : ReturnStatement := { token := p.cur_token, return_value := none }
  let p := p.next_token
  match Parser.skip_to_semicolon fuel p with
  | none => none
  | some p => some (some (.returnStatement stmt), p)

/-- `Parser::parse_expression_statement`: always yields a statement; an
optional trailing semicolon is consumed. -/
def Parser.parse_expression_statement (p : Parser) : Option Statement × Parser :=
  let token := p.cur_token
  let r := p.parse_expression Operator.Lowest.asUsize
  let stmt : ExpressionStatement := { token := token, expression := r.1 }
  let p := r.2
  if p.peek_token_is .SEMICOLON then
    (some (.expressionStatement stmt), p.next_token)
  else (some (.expressionStatement stmt), p)

/-- `Parser::parse_statement`: dispatch on the current token kind. -/
def Parser.parse_statement (fuel : Nat) (p : Parser) :
    Option (Option Statement × Parser) :=
  if p.cur_token.token_type = .LET then Parser.parse_let_statement fuel p
  else if p.cur_token.token_type = .RETURN then Parser.parse_return_statement fuel p
  else some p.parse_expression_statement

/-- The `while !self.cur_token_is(EOF)` loop of `Parser::parse_program`,
with an explicit fuel bound (`none` = out of fuel). -/
def Parser.parse_program_go : Nat → Parser → List Statement → Option (Program × Parser)
  | 0, p, statements =>
    if p.cur_token_is .EOF then some ({ statements := statements }, p) else none
  | fuel + 1, p, statements =>
    if p.cur_token_is .EOF then some ({ statements := statements }, p)
    else
      match Parser.parse_statement fuel p with
      | none => none
      | some (stmt, p) =>
        let statements :=
          match stmt with
          | some stmt => statements ++ [stmt]
          | none => statements
        Parser.parse_program_go fuel p.next_token statements

/-- `Parser::parse_program`. -/
def Parser.parse_program (fuel : Nat) (p : Parser) : Option (Program × Parser) :=
  Parser.parse_program_go fuel p []

/-- End-to-end entry point: lex and parse a source string
(`Parser::new(Lexer::new(input))` followed by `parse_program`). -/
def parse (input : String) (fuel : Nat) : Option (Program × Parser) :=
  Parser.parse_program fuel (Parser.new input.toList)

/-- Whether a statement is a `Let` statement. -/
def Statement.isLet : Statement → Bool
  | .letStatement _ => true
  | _ => false

/-- Divergence of `parse_program` on an input: no fuel bound suffices, i.e.
the unbounded source loop never finishes. -/
def parse_diverges (input : String) : Prop :=
  ∀ fuel, parse input fuel = none

/-! ## Helper lemmas -/

theorem read_char_none_of_le (input : List Char) (pos : Nat)
    (h : input.length ≤ pos) : read_char input pos = none :=
  List.get?_len_le h

theorem drop_cons_of_read_char {input : List Char} {pos : Nat} {ch : Char}
    (h : read_char input pos = some ch) :
    input.drop pos = ch :: input.drop (pos + 1) := by
  obtain ⟨hlt, hg⟩ := List.get?_eq_some.mp h
  rw [List.get_eq_getElem] at hg
  rw [List.drop_eq_getElem_cons hlt, hg]

theorem skip_whitespace_go_ge (l : List Char) :
    ∀ pos : Nat, pos ≤ skip_whitespace_go l pos := by
  induction l with
  | nil => intro pos; exact Nat.le_refl pos
  | cons ch rest ih =>
    intro pos
    simp only [skip_whitespace_go]
    split
    · exact Nat.le_trans (Nat.le_succ pos) (ih (pos + 1))
    · exact Nat.le_refl pos

theorem read_identifier_go_ge (l : List Char) :
    ∀ pos : Nat, pos ≤ read_identifier_go l pos := by
  induction l with
  | nil => intro pos; exact Nat.le_refl pos
  | cons ch rest ih =>
    intro pos
    simp only [read_identifier_go]
    split
    · exact Nat.le_trans (Nat.le_succ pos) (ih (pos + 1))
    · exact Nat.le_refl pos

theorem read_number_go_ge (l : List Char) :
    ∀ pos : Nat, pos ≤ read_number_go l pos := by
  induction l with
  | nil => intro pos; exact Nat.le_refl pos
  | cons ch rest ih =>
    intro pos
    simp only [read_number_go]
    split
    · exact Nat.le_trans (Nat.le_succ pos) (ih (pos + 1))
    · exact Nat.le_refl pos

theorem skip_whitespace_ge (input : List Char) (pos : Nat) :
    pos ≤ skip_whitespace input pos :=
  skip_whitespace_go_ge _ _

theorem skip_whitespace_at_end (input : List Char) (pos : Nat)
    (h : input.length ≤ pos) : skip_whitespace input pos = pos := by
  unfold skip_whitespace
  rw [List.drop_eq_nil_of_le h]
  rfl

theorem read_identifier_succ_le {input : List Char} {pos : Nat} {ch : Char}
    (h : read_char input pos = some ch) (hl : is_letter ch = true) :
    pos + 1 ≤ read_identifier input pos := by
  unfold read_identifier
  rw [drop_cons_of_read_char h]
  simp only [read_identifier_go, hl, if_true]
  exact read_identifier_go_ge _ _

theorem read_number_succ_le {input : List Char} {pos : Nat} {ch : Char}
    (h : read_char input pos = some ch) (hd : is_ascii_digit ch = true) :
    pos + 1 ≤ read_number input pos := by
  unfold read_number
  rw [drop_cons_of_read_char h]
  simp only [read_number_go, hd, if_true]
  exact read_number_go_ge _ _

theorem next_token_at_end (input : List Char) (pos : Nat)
    (h : input.length ≤ pos) :
    next_token input pos = ({ token_type := .EOF, literal := " " }, pos + 1) := by
  simp only [next_token, skip_whitespace_at_end input pos h,
    read_char_none_of_le input pos h, new_token]
  rfl

theorem parser_next_token_at_end {p : Parser} (h : p.input.length ≤ p.pos) :
    p.next_token =
      { p with cur_token := p.peek_token,
               peek_token := { token_type := .EOF, literal := " " },
               pos := p.pos + 1 } := by
  simp [Parser.next_token, next_token_at_end _ _ h]

theorem skip_to_semicolon_none_at_end :
    ∀ (fuel : Nat) (p : Parser), p.input.length ≤ p.pos →
      p.cur_token.token_type = .EOF → p.peek_token.token_type = .EOF →
      Parser.skip_to_semicolon fuel p = none := by
  intro fuel
  induction fuel with
  | zero =>
    intro p _ hcur _
    simp [Parser.skip_to_semicolon, Parser.cur_token_is, hcur]
  | succ n ih =>
    intro p hlen hcur hpeek
    rw [Parser.skip_to_semicolon, if_neg (by simp [Parser.cur_token_is, hcur])]
    rw [parser_next_token_at_end hlen]
    exact ih _ (Nat.le_trans hlen (Nat.le_succ _)) hpeek rfl

theorem parse_let_statement_skip_none {fuel : Nat} {p p1 p2 : Parser}
    (h1 : p.expect_peek .IDENT = (true, p1))
    (h2 : p1.expect_peek .ASSIGN = (true, p2))
    (h3 : Parser.skip_to_semicolon fuel p2 = none) :
    Parser.parse_let_statement fuel p = none := by
  simp only [Parser.parse_let_statement, h1, h2, h3]

theorem parse_statement_of_let {fuel : Nat} {p : Parser}
    (h : p.cur_token.token_type = .LET) :
    Parser.parse_statement fuel p = Parser.parse_let_statement fuel p := by
  simp only [Parser.parse_statement, h, if_true, reduceIte]

theorem c1_skip_none (fuel : Nat) :
    Parser.skip_to_semicolon fuel
      ⟨"let x = 5".toList, 9, [], ⟨.ASSIGN, "="⟩, ⟨.INT, "5"⟩⟩ = none := by
  obtain _ | fuel := fuel
  · decide
  obtain _ | fuel := fuel
  · decide
  show Parser.skip_to_semicolon fuel
      ⟨"let x = 5".toList, 11, [], ⟨.EOF, " "⟩, ⟨.EOF, " "⟩⟩ = none
  exact skip_to_semicolon_none_at_end fuel _ (by decide) rfl rfl

theorem c1_parse_statement_none (fuel : Nat) :
    Parser.parse_statement fuel
      ⟨"let x = 5".toList, 5, [], ⟨.LET, "let"⟩, ⟨.IDENT, "x"⟩⟩ = none := by
  rw [parse_statement_of_let rfl]
  exact @parse_let_statement_skip_none fuel
    ⟨"let x = 5".toList, 5, [], ⟨.LET, "let"⟩, ⟨.IDENT, "x"⟩⟩
    ⟨"let x = 5".toList, 7, [], ⟨.IDENT, "x"⟩, ⟨.ASSIGN, "="⟩⟩
    ⟨"let x = 5".toList, 9, [], ⟨.ASSIGN, "="⟩, ⟨.INT, "5"⟩⟩
    (by decide) (by decide) (c1_skip_none fuel)

set_option maxHeartbeats 2000000 in
theorem next_token_body_pos_ge {input : List Char} {position : Nat} {ch : Char}
    (h : read_char input position = some ch) :
    position ≤ (next_token_body input position ch).2 := by
  rw [next_token_body]
  by_cases h1 : ch = '='
  · rw [if_pos h1]
    rcases hp : read_char input (position + 1) with _ | pc
    · exact Nat.le_refl _
    · by_cases hpc : pc = '='
      · subst hpc
        exact Nat.le_succ _
      · show position ≤ (if pc = '=' then
            (({ token_type := TokenType.EQ, literal := String.mk [ch, pc] } : Token),
             position + 1)
          else (new_token .ASSIGN ch, position)).2
        rw [if_neg hpc]
  · rw [if_neg h1]
    by_cases h2 : ch = '+'
    · rw [if_pos h2]
    · rw [if_neg h2]
      by_cases h3 : ch = '-'
      · rw [if_pos h3]
      · rw [if_neg h3]
        by_cases h4 : ch = '!'
        · rw [if_pos h4]
          rcases hp : read_char input (position + 1) with _ | pc
          · exact Nat.le_refl _
          · by_cases hpc : pc = '='
            · subst hpc
              exact Nat.le_succ _
            · show position ≤ (if pc = '=' then
                  (({ token_type := TokenType.NOTEQ,
                      literal := String.mk [ch, pc] } : Token), position + 1)
                else (new_token .BANG ch, position)).2
              rw [if_neg hpc]
        · rw [if_neg h4]
          by_cases h5 : ch = '/'
          · rw [if_pos h5]
          · rw [if_neg h5]
            by_cases h6 : ch = '*'
            · rw [if_pos h6]
            · rw [if_neg h6]
              by_cases h7 : ch = '<'
              · rw [if_pos h7]
              · rw [if_neg h7]
                by_cases h8 : ch = '>'
                · rw [if_pos h8]
                · rw [if_neg h8]
                  by_cases h9 : ch = ';'
                  · rw [if_pos h9]
                  · rw [if_neg h9]
                    by_cases h10 : ch = ','
                    · rw [if_pos h10]
                    · rw [if_neg h10]
                      by_cases h11 : ch = '('
                      · rw [if_pos h11]
                      · rw [if_neg h11]
                        by_cases h12 : ch = ')'
                        · rw [if_pos h12]
                        · rw [if_neg h12]
                          by_cases h13 : ch = Char.ofNat 123
                          · rw [if_pos h13]
                          · rw [if_neg h13]
                            by_cases h14 : ch = Char.ofNat 125
                            · rw [if_pos h14]
                            · rw [if_neg h14]
                              by_cases h15 : is_letter ch = true
                              · rw [if_pos h15]
                                have hb := read_identifier_succ_le h h15
                                show position ≤ read_identifier input position - 1
                                omega
                              · rw [if_neg h15]
                                by_cases h16 : is_ascii_digit ch = true
                                · rw [if_pos h16]
                                  have hb := read_number_succ_le h h16
                                  show position ≤ read_number input position - 1
                                  omega
                                · rw [if_neg h16]

theorem next_token_pos_lt (input : List Char) (pos : Nat) :
    pos < (next_token input pos).2 := by
  have hskip : pos ≤ skip_whitespace input pos := skip_whitespace_ge input pos
  rw [next_token]
  rcases h : read_char input (skip_whitespace input pos) with _ | ch
  · show pos < skip_whitespace input pos + 1
    omega
  · have hb := next_token_body_pos_ge h
    show pos < (next_token_body input (skip_whitespace input pos) ch).2 + 1
    omega

theorem next_token_via_body {input : List Char} {pos p : Nat} {ch : Char}
    (hskip : skip_whitespace input pos = p)
    (hchar : read_char input p = some ch) :
    next_token input pos =
      ((next_token_body input p ch).1, (next_token_body input p ch).2 + 1) := by
  simp only [next_token, hskip, hchar]

theorem next_token_body_eq_arm (input : List Char) (p : Nat) :
    next_token_body input p '=' =
      if read_char input (p + 1) = some '=' then
        ({ token_type := .EQ, literal := "==" }, p + 1)
      else ({ token_type := .ASSIGN, literal := "=" }, p) := by
  rw [next_token_body, if_pos rfl]
  rcases hp : read_char input (p + 1) with _ | pc
  · rfl
  · by_cases hpc : pc = '='
    · subst hpc
      rfl
    · show (if pc = '=' then
          (({ token_type := TokenType.EQ, literal := String.mk ['=', pc] } : Token),
           p + 1)
        else (new_token .ASSIGN '=', p)) =
        if some pc = some '=' then
          (({ token_type := TokenType.EQ, literal := "==" } : Token), p + 1)
        else ({ token_type := TokenType.ASSIGN, literal := "=" }, p)
      rw [if_neg hpc, if_neg (by simp [hpc])]
      rfl

theorem next_token_body_bang_arm (input : List Char) (p : Nat) :
    next_token_body input p '!' =
      if read_char input (p + 1) = some '=' then
        ({ token_type := .NOTEQ, literal := "!=" }, p + 1)
      else ({ token_type := .BANG, literal := "!" }, p) := by
  rw [next_token_body, if_neg (by decide), if_neg (by decide), if_neg (by decide),
    if_pos rfl]
  rcases hp : read_char input (p + 1) with _ | pc
  · rfl
  · by_cases hpc : pc = '='
    · subst hpc
      rfl
    · show (if pc = '=' then
          (({ token_type := TokenType.NOTEQ, literal := String.mk ['!', pc] } : Token),
           p + 1)
        else (new_token .BANG '!', p)) =
        if some pc = some '=' then
          (({ token_type := TokenType.NOTEQ, literal := "!=" } : Token), p + 1)
        else ({ token_type := TokenType.BANG, literal := "!" }, p)
      rw [if_neg hpc, if_neg (by simp [hpc])]
      rfl

theorem is_letter_not_special {ch : Char} (h : is_letter ch = true) :
    ch ≠ '=' ∧ ch ≠ '+' ∧ ch ≠ '-' ∧ ch ≠ '!' ∧ ch ≠ '/' ∧ ch ≠ '*' ∧ ch ≠ '<' ∧
    ch ≠ '>' ∧ ch ≠ ';' ∧ ch ≠ ',' ∧ ch ≠ '(' ∧ ch ≠ ')' ∧ ch ≠ Char.ofNat 123 ∧
    ch ≠ Char.ofNat 125 := by
  refine ⟨?_, ?_, ?_, ?_, ?_, ?_, ?_, ?_, ?_, ?_, ?_, ?_, ?_, ?_⟩ <;>
    (rintro rfl; revert h; decide)

theorem next_token_body_letter_arm {input : List Char} {p : Nat} {ch : Char}
    (hl : is_letter ch = true) :
    next_token_body input p ch =
      ({ token_type := lookup_ident (slice input p (read_identifier input p)),
         literal := slice input p (read_identifier input p) },
       read_identifier input p - 1) := by
  obtain ⟨n1, n2, n3, n4, n5, n6, n7, n8, n9, n10, n11, n12, n13, n14⟩ :=
    is_letter_not_special hl
  rw [next_token_body, if_neg n1, if_neg n2, if_neg n3, if_neg n4, if_neg n5,
    if_neg n6, if_neg n7, if_neg n8, if_neg n9, if_neg n10, if_neg n11,
    if_neg n12, if_neg n13, if_neg n14, if_pos hl]

theorem parse_expression_statement_shape (p : Parser) :
    ∃ p2, p.parse_expression_statement =
      (some (.expressionStatement
        { token := p.cur_token,
          expression := (p.parse_expression Operator.Lowest.asUsize).1 }), p2) ∧
      p2.errors = (p.parse_expression Operator.Lowest.asUsize).2.errors := by
  simp only [Parser.parse_expression_statement]
  by_cases hsemi :
      (p.parse_expression Operator.Lowest.asUsize).2.peek_token_is .SEMICOLON = true
  · rw [if_pos hsemi]
    exact ⟨_, rfl, rfl⟩
  · rw [if_neg hsemi]
    exact ⟨_, rfl, rfl⟩

theorem lookup_ident_not_keyword {s : String}
    (h1 : s ≠ "fn") (h2 : s ≠ "let") (h3 : s ≠ "true") (h4 : s ≠ "false")
    (h5 : s ≠ "if") (h6 : s ≠ "else") (h7 : s ≠ "return") :
    lookup_ident s = .IDENT := by
  have g1 : ("fn" = s) = False := eq_false (Ne.symm h1)
  have g2 : ("let" = s) = False := eq_false (Ne.symm h2)
  have g3 : ("true" = s) = False := eq_false (Ne.symm h3)
  have g4 : ("false" = s) = False := eq_false (Ne.symm h4)
  have g5 : ("if" = s) = False := eq_false (Ne.symm h5)
  have g6 : ("else" = s) = False := eq_false (Ne.symm h6)
  have g7 : ("return" = s) = False := eq_false (Ne.symm h7)
  simp [lookup_ident, KEYWORDS, List.filterMap, g1, g2, g3, g4, g5, g6, g7]

/-! ## Claim theorems -/

/-- C1 (amended): `parse_program` is not total.  It terminates and returns
the parsed `Program` when every `let`/`return` statement reaches a
semicolon before end of input — e.g. `"let x = 5;"` and `"return 5;"`
parse to one statement with no diagnostics — but on inputs where a `let`
or `return` statement is *not* followed by a semicolon before end of
input, such as `"let x = 5"` or `"return 5"`, the skip-to-semicolon loop
never exits and no fuel bound suffices. -/
theorem parse_program_partial_termination :
    (parse "let x = 5;" 100).map (fun r => (r.1.statements, r.2.errors)) =
      some ([.letStatement
        { token := { token_type := .LET, literal := "let" },
          name := { token := { token_type := .IDENT, literal := "x" }, value := "x" },
          value := none }], []) ∧
    (parse "return 5;" 100).map (fun r => (r.1.statements, r.2.errors)) =
      some ([.returnStatement
        { token := { token_type := .RETURN, literal := "return" },
          return_value := none }], []) ∧
    parse "let x = 5" 100 = none ∧
    parse "return 5" 100 = none := by decide

/-- C1 (counterexample): on the input `"let x = 5"` — a `let` statement
not followed by a semicolon before end of input — `parse_program`
diverges: the `while !cur_token_is(SEMICOLON)` loop inside
`parse_let_statement` runs forever over the endless stream of EOF tokens,
so no fuel bound makes the parse finish.  This refutes the claim that
`parse_program` terminates for every input. -/
theorem parse_program_diverges_on_missing_semicolon :
    parse_diverges "let x = 5" := by
  intro fuel
  rw [parse, Parser.parse_program]
  rw [show Parser.new "let x = 5".toList =
      ⟨"let x = 5".toList, 5, [], ⟨.LET, "let"⟩, ⟨.IDENT, "x"⟩⟩ from by decide]
  obtain _ | fuel := fuel
  · decide
  · simp only [Parser.parse_program_go]
    rw [if_neg (by decide), c1_parse_statement_none fuel]

/-- C2 (code bug): parsing `"let = 5;"` reaches the state whose current
token is LET and peek token is ASSIGN; there `expect_peek(IDENT)` returns
failure without advancing the window, and `peek_error(IDENT)` builds
exactly the string "expected next token to be IDENT, got ASSIGN instead"
— but `expect_peek` discards that string instead of appending it to
`errors`, so the full parse ends with 0 Let statements (2 expression
statements) and an *empty* error list, not the single diagnostic the
claim requires. -/
theorem expect_peek_diagnostic_discarded_on_let_assign :
    Parser.new "let = 5;".toList =
      ⟨"let = 5;".toList, 5, [], ⟨.LET, "let"⟩, ⟨.ASSIGN, "="⟩⟩ ∧
    Parser.expect_peek ⟨"let = 5;".toList, 5, [], ⟨.LET, "let"⟩, ⟨.ASSIGN, "="⟩⟩ .IDENT =
      (false, ⟨"let = 5;".toList, 5, [], ⟨.LET, "let"⟩, ⟨.ASSIGN, "="⟩⟩) ∧
    Parser.peek_error ⟨"let = 5;".toList, 5, [], ⟨.LET, "let"⟩, ⟨.ASSIGN, "="⟩⟩ .IDENT =
      "expected next token to be IDENT, got ASSIGN instead" ∧
    (parse "let = 5;" 100).map (fun r =>
      ((r.1.statements.filter Statement.isLet).length,
       r.1.statements.length, r.2.errors)) = some (0, 2, []) := by decide

/-- C3 (amended): at or past the end of the input, `next_token` returns
the end-of-input token whose literal is the single space `" "` (produced
by `new_token(EOF, ' ')`), not the empty string, and calling it again
yields the same end-of-input token (stable at end of input). -/
theorem next_token_end_of_input_stable (input : List Char) (pos : Nat)
    (h : input.length ≤ pos) :
    next_token input pos = ({ token_type := .EOF, literal := " " }, pos + 1) ∧
    next_token input (next_token input pos).2 =
      ({ token_type := .EOF, literal := " " }, pos + 2) := by
  have h1 := next_token_at_end input pos h
  refine ⟨h1, ?_⟩
  rw [h1]
  exact next_token_at_end input (pos + 1) (Nat.le_trans h (Nat.le_succ pos))

/-- C3 (witness): the amended theorem instantiated at the empty input and
position 0. -/
theorem next_token_end_of_input_stable_witness :
    next_token ([] : List Char) 0 = ({ token_type := .EOF, literal := " " }, 1) ∧
    next_token ([] : List Char) (next_token ([] : List Char) 0).2 =
      ({ token_type := .EOF, literal := " " }, 2) :=
  next_token_end_of_input_stable [] 0 (Nat.le_refl 0)

/-- C3 (counterexample): the end-of-input token's literal is not the empty
string (it is the one-character string `" "`), already at the end of the
empty input. -/
theorem next_token_end_of_input_literal_nonempty :
    (next_token ([] : List Char) 0).1.literal ≠ "" := by decide

/-- C4: parsing `"let x = 5; let y = 10; let foobar = 838383;"` yields a
Program with exactly 3 statements, each a Let statement, with binding
names "x", "y", "foobar" in that order, and an empty diagnostic list. -/
theorem parse_three_let_statements_program :
    (parse "let x = 5; let y = 10; let foobar = 838383;" 100).map
      (fun r => (r.1.statements, r.2.errors)) =
    some ([.letStatement
             { token := { token_type := .LET, literal := "let" },
               name := { token := { token_type := .IDENT, literal := "x" },
                         value := "x" },
               value := none },
           .letStatement
             { token := { token_type := .LET, literal := "let" },
               name := { token := { token_type := .IDENT, literal := "y" },
                         value := "y" },
               value := none },
           .letStatement
             { token := { token_type := .LET, literal := "let" },
               name := { token := { token_type := .IDENT, literal := "foobar" },
                         value := "foobar" },
               value := none }], []) := by decide

/-- C5: parsing `"foobar;"` yields exactly one Expression statement whose
inner expression is the Identifier "foobar"; parsing `"5;"` yields exactly
one Expression statement whose inner expression is the IntegerLiteral 5;
and the trailing semicolon is an optional terminator (parsing `"foobar"`
yields the same statement list). -/
theorem parse_identifier_and_integer_expression_statements :
    (parse "foobar;" 100).map (fun r => (r.1.statements, r.2.errors)) =
      some ([.expressionStatement
        { token := { token_type := .IDENT, literal := "foobar" },
          expression := some (.identifier
            { token := { token_type := .IDENT, literal := "foobar" },
              value := "foobar" }) }], []) ∧
    (parse "5;" 100).map (fun r => (r.1.statements, r.2.errors)) =
      some ([.expressionStatement
        { token := { token_type := .INT, literal := "5" },
          expression := some (.integerLiteral
            { token := { token_type := .INT, literal := "5" },
              value := 5 }) }], []) ∧
    (parse "foobar" 100).map (fun r => r.1.statements) =
      (parse "foobar;" 100).map (fun r => r.1.statements) := by decide

/-- C6: tokenizing `"=="` from position 0 yields exactly one equality
token with literal "==" (followed by end of input), `"= "` yields one
assignment token with literal "="; and in general `=` and `!` perform one
character of lookahead, consuming a compound two-character token exactly
when the next character is `=`. -/
theorem next_token_equality_lookahead :
    (next_token "==".toList 0 = ({ token_type := .EQ, literal := "==" }, 2) ∧
     (next_token "==".toList 2).1.token_type = .EOF) ∧
    next_token "= ".toList 0 = ({ token_type := .ASSIGN, literal := "=" }, 1) ∧
    (∀ (input : List Char) (pos p : Nat),
      skip_whitespace input pos = p → read_char input p = some '=' →
      next_token input pos =
        if read_char input (p + 1) = some '=' then
          ({ token_type := .EQ, literal := "==" }, p + 2)
        else ({ token_type := .ASSIGN, literal := "=" }, p + 1)) ∧
    (∀ (input : List Char) (pos p : Nat),
      skip_whitespace input pos = p → read_char input p = some '!' →
      next_token input pos =
        if read_char input (p + 1) = some '=' then
          ({ token_type := .NOTEQ, literal := "!=" }, p + 2)
        else ({ token_type := .BANG, literal := "!" }, p + 1)) := by
  refine ⟨⟨by decide, by decide⟩, by decide, ?_, ?_⟩
  · intro input pos p hs hc
    rw [next_token_via_body hs hc, next_token_body_eq_arm]
    by_cases hc2 : read_char input (p + 1) = some '='
    · rw [if_pos hc2, if_pos hc2]
    · rw [if_neg hc2, if_neg hc2]
  · intro input pos p hs hc
    rw [next_token_via_body hs hc, next_token_body_bang_arm]
    by_cases hc2 : read_char input (p + 1) = some '='
    · rw [if_pos hc2, if_pos hc2]
    · rw [if_neg hc2, if_neg hc2]

/-- C6 (witness): the general `=` lookahead statement instantiated at the
input `"=a"`, where the following character is not `=`, so a single
assignment token results. -/
theorem next_token_equality_lookahead_witness :
    next_token "=a".toList 0 = ({ token_type := .ASSIGN, literal := "=" }, 1) := by
  have h := next_token_equality_lookahead.2.2.1 "=a".toList 0 0 (by decide) (by decide)
  rw [h]
  decide

/-- C7: a letter or underscore starts a maximal run of letters and
underscores captured as one token whose kind is the exact, case-sensitive
keyword-table lookup of the captured text (the seven keywords map to their
kinds, everything else to IDENT): `"let"` is one LET token, `"letx"` is
one IDENT token with literal "letx". -/
theorem identifier_maximal_munch_keyword_lookup :
    (next_token "let".toList 0 = ({ token_type := .LET, literal := "let" }, 3) ∧
     (next_token "let".toList 3).1.token_type = .EOF) ∧
    (next_token "letx".toList 0 = ({ token_type := .IDENT, literal := "letx" }, 4) ∧
     (next_token "letx".toList 4).1.token_type = .EOF) ∧
    (lookup_ident "fn" = .FUNCTION ∧ lookup_ident "let" = .LET ∧
     lookup_ident "true" = .TRUE ∧ lookup_ident "false" = .FALSE ∧
     lookup_ident "if" = .IF ∧ lookup_ident "else" = .ELSE ∧
     lookup_ident "return" = .RETURN ∧ lookup_ident "Let" = .IDENT ∧
     lookup_ident "LET" = .IDENT) ∧
    (∀ s : String, s ≠ "fn" → s ≠ "let" → s ≠ "true" → s ≠ "false" → s ≠ "if" →
      s ≠ "else" → s ≠ "return" → lookup_ident s = .IDENT) ∧
    (∀ (input : List Char) (pos p : Nat) (ch : Char),
      skip_whitespace input pos = p → read_char input p = some ch →
      is_letter ch = true →
      next_token input pos =
        ({ token_type := lookup_ident (slice input p (read_identifier input p)),
           literal := slice input p (read_identifier input p) },
         read_identifier input p)) := by
  refine ⟨⟨by decide, by decide⟩, ⟨by decide, by decide⟩, by decide, ?_, ?_⟩
  · intro s h1 h2 h3 h4 h5 h6 h7
    exact lookup_ident_not_keyword h1 h2 h3 h4 h5 h6 h7
  · intro input pos p ch hs hc hl
    rw [next_token_via_body hs hc, next_token_body_letter_arm hl]
    have hb := read_identifier_succ_le hc hl
    have h2 : read_identifier input p - 1 + 1 = read_identifier input p := by omega
    rw [h2]

/-- C7 (witness): the general statements instantiated at the non-keyword
text "abc" and at the input `"letx"` read from position 0. -/
theorem identifier_maximal_munch_keyword_lookup_witness :
    lookup_ident "abc" = .IDENT ∧
    next_token "letx".toList 0 =
      ({ token_type := lookup_ident (slice "letx".toList 0 (read_identifier "letx".toList 0)),
         literal := slice "letx".toList 0 (read_identifier "letx".toList 0) },
       read_identifier "letx".toList 0) :=
  ⟨identifier_maximal_munch_keyword_lookup.2.2.2.1 "abc" (by decide) (by decide)
     (by decide) (by decide) (by decide) (by decide) (by decide),
   identifier_maximal_munch_keyword_lookup.2.2.2.2 "letx".toList 0 0 'l'
     (by decide) (by decide) (by decide)⟩

/-- C8: tokenizing `"@"` yields one illegal token with literal "@"
followed immediately by the end-of-input token; the read position strictly
advances on every call (so tokenization cannot hang), and on any
one-character input the second call already returns end of input. -/
theorem illegal_token_recovery_no_hang :
    next_token "@".toList 0 = ({ token_type := .ILLEGAL, literal := "@" }, 1) ∧
    (next_token "@".toList 1).1 = { token_type := .EOF, literal := " " } ∧
    (∀ (input : List Char) (pos : Nat), pos < (next_token input pos).2) ∧
    (∀ c : Char, (next_token [c] (next_token [c] 0).2).1.token_type = .EOF) := by
  refine ⟨by decide, by decide, next_token_pos_lt, ?_⟩
  intro c
  have h1 : (1 : Nat) ≤ (next_token [c] 0).2 := next_token_pos_lt [c] 0
  rw [next_token_at_end [c] _ h1]

/-- C9: the canonical text reconstruction of a Let statement with token
literal "let", name "myVar" and value Identifier "anotherVar" is exactly
"let myVar = anotherVar;", both for the statement node and for a Program
containing only that statement. -/
theorem let_statement_string_reconstruction :
    LetStatement.string
      { token := { token_type := .LET, literal := "let" },
        name := { token := { token_type := .IDENT, literal := "myVar" },
                  value := "myVar" },
        value := some (.identifier
          { token := { token_type := .IDENT, literal := "anotherVar" },
            value := "anotherVar" }) } = "let myVar = anotherVar;" ∧
    Program.string { statements := [.letStatement
      { token := { token_type := .LET, literal := "let" },
        name := { token := { token_type := .IDENT, literal := "myVar" },
                  value := "myVar" },
        value := some (.identifier
          { token := { token_type := .IDENT, literal := "anotherVar" },
            value := "anotherVar" }) }] } = "let myVar = anotherVar;" := by decide

/-- C10 (amended): whenever the current token kind is neither LET nor
RETURN, `parse_statement` returns an ExpressionStatement node carrying the
current token — even when no expression can be parsed.  When no prefix
handler applies (kind neither IDENT nor INT, e.g. a `+` at statement
head), the inner expression is absent and the error list is unchanged, and
parsing `"+"` appends exactly that statement with no diagnostics.  When
the head is an INT token whose literal fails to parse as an `i64`, the
statement is likewise appended with an absent inner expression, but the
"could not parse … as integer" diagnostic *is* recorded. -/
theorem parse_statement_default_expression_statement :
    (∀ (fuel : Nat) (p : Parser), p.cur_token.token_type ≠ .LET →
      p.cur_token.token_type ≠ .RETURN →
      (∃ stmt p2, Parser.parse_statement fuel p =
          some (some (.expressionStatement stmt), p2) ∧ stmt.token = p.cur_token) ∧
      (p.cur_token.token_type ≠ .IDENT → p.cur_token.token_type ≠ .INT →
        ∃ p2, Parser.parse_statement fuel p =
          some (some (.expressionStatement
            { token := p.cur_token, expression := none }), p2) ∧
          p2.errors = p.errors) ∧
      (p.cur_token.token_type = .INT → parse_i64 p.cur_token.literal = none →
        ∃ p2, Parser.parse_statement fuel p =
          some (some (.expressionStatement
            { token := p.cur_token, expression := none }), p2) ∧
          p2.errors = p.errors ++
            ["could not parse " ++ p.cur_token.literal ++ " as integer"])) ∧
    (parse "+" 100).map (fun r => (r.1.statements, r.2.errors)) =
      some ([.expressionStatement
        { token := { token_type := .PLUS, literal := "+" },
          expression := none }], []) := by
  constructor
  · intro fuel p hlet hret
    have hdisp : Parser.parse_statement fuel p = some p.parse_expression_statement := by
      rw [Parser.parse_statement, if_neg hlet, if_neg hret]
    obtain ⟨p2, hshape, herr⟩ := parse_expression_statement_shape p
    refine ⟨⟨_, p2, by rw [hdisp, hshape], rfl⟩, ?_, ?_⟩
    · intro hid hint
      have hexpr : p.parse_expression Operator.Lowest.asUsize = (none, p) := by
        rw [Parser.parse_expression, if_neg hid, if_neg hint]
      rw [hexpr] at hshape herr
      exact ⟨p2, by rw [hdisp, hshape], herr⟩
    · intro hint hparse
      have hid : p.cur_token.token_type ≠ .IDENT := by
        rw [hint]
        decide
      have hexpr : p.parse_expression Operator.Lowest.asUsize =
          (none, { p with errors := p.errors ++
            ["could not parse " ++ p.cur_token.literal ++ " as integer"] }) := by
        rw [Parser.parse_expression, if_neg hid, if_pos hint,
          Parser.parese_integer_literal, hparse]
      rw [hexpr] at hshape herr
      exact ⟨p2, by rw [hdisp, hshape], herr⟩
  · decide

/-- C10 (witness): the general statement instantiated at the parser state
primed on the input `"+"` (current token PLUS), with fuel 0. -/
theorem parse_statement_default_expression_statement_witness :
    ∃ stmt p2, Parser.parse_statement 0 (Parser.new "+".toList) =
      some (some (.expressionStatement stmt), p2) ∧
      stmt.token = (Parser.new "+".toList).cur_token :=
  ((parse_statement_default_expression_statement.1 0 (Parser.new "+".toList)
    (by decide) (by decide)).1)

/-- C10 (counterexample): the claim's "no diagnostic is recorded" clause
fails on an INT statement head whose literal overflows `i64`: parsing
`"9223372036854775808"` (i64 maximum plus one) appends an
ExpressionStatement with an absent inner expression — as the claim says —
but the error list afterwards contains the "could not parse … as integer"
diagnostic, so a diagnostic *was* recorded. -/
theorem parse_statement_int_overflow_records_diagnostic :
    (parse "9223372036854775808" 100).map
      (fun r => (r.1.statements, r.2.errors)) =
      some ([.expressionStatement
        { token := { token_type := .INT, literal := "9223372036854775808" },
          expression := none }],
        ["could not parse 9223372036854775808 as integer"]) := by decide

end Monkey
